import Mathlib

set_option maxRecDepth 100000

/-!
Shallow embedding of the `gcp_release_notes` backend.

The definitions below are translated from the TypeScript sources:
  - `backend/src/services/gemini.service.ts` (GeminiService: prompt building,
    response-text extraction, markdown-section parsing, model fallback),
  - `backend/src/services/bigquery.service.ts` (BigQueryService: date-range
    computation and query construction),
  - `backend/src/services/visitor-counter.service.ts` (VisitorCounterService),
  - `backend/src/config/index.ts` (model-name validation),
  - `backend/src/controllers/release-notes.controller.ts` (request flow).

JavaScript string primitives (`split`, `includes`, `trim`, `startsWith`,
`replace`, `parseInt`) are modelled on `List Char`, and the ECMAScript `Date`
day arithmetic used by `setDate`/`getDate` is modelled with a civil-calendar
day-number conversion.  External services (the Gemini HTTP API, Firestore,
BigQuery) appear as explicit oracles / state parameters.
-/

/-- Model of JS `s.includes(sub)`: `sub` occurs as a contiguous substring. -/
def charsContains : List Char → List Char → Bool
  | [], sub => sub.isEmpty
  | c :: rest, sub => List.isPrefixOf sub (c :: rest) || charsContains rest sub

/-- JS `s.includes(sub)` on `String`. -/
def strIncludes (s sub : String) : Bool :=
  charsContains s.data sub.data

/-- JS `s.startsWith(pre)`. -/
def jsStartsWith (s pre : String) : Bool :=
  List.isPrefixOf pre.data s.data

/-- JS `s.trim()`: strip leading and trailing whitespace. -/
def jsTrim (s : String) : String :=
  String.mk (((s.data.dropWhile Char.isWhitespace).reverse.dropWhile
    Char.isWhitespace).reverse)

/-- Fuel-indexed worker for `splitOnSub`; fuel bounds the number of scanning
steps so the recursion is structural and computations reduce by `rfl`. -/
def splitOnSubAux (sep : List Char) : Nat → List Char → List Char → List (List Char)
  | 0, s, acc => [acc.reverse ++ s]
  | _ + 1, [], acc => [acc.reverse]
  | fuel + 1, c :: rest, acc =>
    if List.isPrefixOf sep (c :: rest) then
      acc.reverse :: splitOnSubAux sep fuel (List.drop (sep.length - 1) rest) []
    else
      splitOnSubAux sep fuel rest (c :: acc)

/-- Model of JS `s.split(sep)` for a non-empty plain-string separator:
left-to-right, non-overlapping occurrences. -/
def splitOnSub (s sep : List Char) : List (List Char) :=
  splitOnSubAux sep s.length s []

/-- JS `s.split(sep)` on `String`. -/
def splitOnSubStr (s sep : String) : List String :=
  (splitOnSub s.data sep.data).map String.mk

/-- First occurrence of `sep` in a list: `some (before, after)` or `none`. -/
def splitFirstSub : List Char → List Char → Option (List Char × List Char)
  | [], sep => if List.isPrefixOf sep ([] : List Char) then some ([], []) else none
  | c :: rest, sep =>
    if List.isPrefixOf sep (c :: rest) then
      some ([], List.drop sep.length (c :: rest))
    else
      match splitFirstSub rest sep with
      | some (pre, post) => some (c :: pre, post)
      | none => none

/-- Model of JS `s.replace(pat, rep)` with a plain-string pattern: replaces
only the first occurrence, returns `s` unchanged when there is none. -/
def jsReplaceFirst (s pat rep : String) : String :=
  match splitFirstSub s.data pat.data with
  | none => s
  | some (pre, post) => String.mk (pre ++ rep.data ++ post)

/-- Numeric value of a list of decimal digit characters. -/
def digitsVal (ds : List Char) : Int :=
  ds.foldl (fun a c => a * 10 + (Int.ofNat c.toNat - 48)) 0

/-- Model of JS `parseInt` on the inputs this system produces: the value of
the leading run of decimal digits, `none` for `NaN` (no leading digit). -/
def jsParseInt (s : String) : Option Int :=
  let ds := s.data.takeWhile Char.isDigit
  if ds.isEmpty then none else some (digitsVal ds)

/-- JS `String(n).padStart(2, "0")`. -/
def pad2 (s : String) : String :=
  String.mk (List.replicate (2 - s.length) '0' ++ s.data)

/-- A release note row as selected from the warehouse
(`backend/src/types/index.ts`). -/
structure ReleaseNote where
  product_name : String
  release_note_type : String
  description : String
  published_at : String
deriving DecidableEq

/-- `SummaryResult` from `gemini.service.ts`. -/
structure SummaryResult where
  markdown : String
  keyFeatures : List String
  industryUseCases : List String
deriving DecidableEq

/-- The filter used on the lines of a markdown section in
`extractKeyFeatures` / `extractIndustryUseCases`:
`line.trim().startsWith('|') && !line.includes('---')`. -/
def isTableRowLine (line : String) : Bool :=
  jsStartsWith (jsTrim line) "|" && !(strIncludes line "---")

/-- JS array destructuring of a possibly-missing element followed by template
interpolation: a missing cell renders as the string `undefined`. -/
def cellOrUndefined (cells : List String) (i : Nat) : String :=
  match cells.get? i with
  | some c => c
  | none => "undefined"

/-- `GeminiService.extractKeyFeatures`: slice the text between the literal
heading `## Key Features and Announcements` and the next `##` (or end of
string), keep each line whose trimmed form starts with `|` and which does not
contain `---`, and take the first `|`-delimited cell after the leading bar. -/
def extractKeyFeatures (markdown : String) : List String :=
  match (splitOnSubStr markdown "## Key Features and Announcements").get? 1 with
  | none => []
  | some rest =>
    let featuresSection := (splitOnSubStr rest "##").headD ""
    if featuresSection = "" then []
    else
      ((splitOnSubStr featuresSection "\n").filter isTableRowLine).map fun line =>
        let cells := (splitOnSubStr line "|").map jsTrim
        cellOrUndefined cells 1

/-- `GeminiService.extractIndustryUseCases`: slice the text between the
literal heading `## Industry Use Cases` and the next `##` (or end of string),
keep each line whose trimmed form starts with `|` and which does not contain
`---`, and format the first two cells as `industry: useCase`. -/
def extractIndustryUseCases (markdown : String) : List String :=
  match (splitOnSubStr markdown "## Industry Use Cases").get? 1 with
  | none => []
  | some rest =>
    let useCasesSection := (splitOnSubStr rest "##").headD ""
    if useCasesSection = "" then []
    else
      ((splitOnSubStr useCasesSection "\n").filter isTableRowLine).map fun line =>
        let cells := (splitOnSubStr line "|").map jsTrim
        cellOrUndefined cells 1 ++ ": " ++ cellOrUndefined cells 2

/-- JS `[...new Set(xs)]`: deduplicate keeping first occurrences in order. -/
def uniqueFirst (l : List String) : List String :=
  l.foldl (fun acc x => if acc.contains x then acc else acc ++ [x]) []

/-- `GeminiService.formatReleaseNotes`: one fixed-template block per note,
joined with newlines. -/
def formatReleaseNotes (notes : List ReleaseNote) : String :=
  String.intercalate "\n"
    (notes.map fun note =>
      "\n### " ++ note.product_name ++ " - " ++ note.release_note_type ++ "\n"
        ++ note.description ++ "\n")

/-- The literal `## Industry Use Cases` table template embedded in the prompt
built by `GeminiService.createPrompt` (heading, column-header row, and
separator row). -/
def promptTableTemplate : String :=
  "## Industry Use Cases\n| Industry | Use Case | Benefits / ROI | Product Feature |\n|----------|----------|---------------|-----------------|"

/-- The part of the `createPrompt` template before the table template. -/
def promptPreamble (notes : List ReleaseNote) : String :=
  "\nPlease analyze the following GCP release notes from multiple products ("
    ++ String.intercalate ", " (uniqueFirst (notes.map (·.product_name)))
    ++ ") and provide a focused analysis of the most impactful features and announcements across different products. Your analysis should:\n\n1. Identify and prioritize the MOST SIGNIFICANT features or announcements that will have the greatest impact on customers\n2. Ensure balanced coverage across different GCP products, not just focusing on one product\n3. Analyze both FEATURE and SERVICE_ANNOUNCEMENT types to find the most valuable capabilities\n4. Match specific industry verticals to the most relevant product features\n\nRelease Notes:\n"
    ++ formatReleaseNotes notes
    ++ "\n\nPlease format your response as a table of industry use cases, with balanced representation across ALL the GCP products mentioned in the release notes:\n\n"

/-- The part of the `createPrompt` template after the table template. -/
def promptTail : String :=
  "\n[Fill this table with diverse industry use cases across DIFFERENT GCP PRODUCTS. For each entry, include:\n- A specific industry vertical (e.g., Retail, Financial Services, Healthcare)\n- Clear, practical use cases formatted as bullet points if there are multiple\n- Measurable benefits including TCO optimization metrics and ROI probabilities (use bullet points for multiple benefits)\n- The specific GCP product feature or announcement that enables this use case]\n\nIMPORTANT GUIDELINES:\n1. DO NOT FOCUS PRIMARILY ON BIGQUERY. Ensure balanced coverage across the different GCP products in the release notes.\n2. RANK AND PRIORITIZE features based on customer impact - focus on the most transformative capabilities.\n3. Include a mix of products (at least 3-4 different GCP products) and both feature types (FEATURE and SERVICE_ANNOUNCEMENT).\n4. For each product, identify the PRIMARY industry vertical that would benefit most from that specific feature.\n5. Provide specific, measurable metrics for ROI and benefits (e.g., \"15-20% reduction in processing time\").\n6. Represent diverse industries: Financial Services, Healthcare, Retail, Manufacturing, Media, etc.\n"

/-- `GeminiService.createPrompt`: the instructional prompt with the formatted
notes and the industry-use-cases table template embedded. -/
def createPrompt (notes : List ReleaseNote) : String :=
  promptPreamble notes ++ promptTableTemplate ++ promptTail

/-- The fields of a `generateContent` response candidate part. -/
structure ResponsePart where
  text : Option String
deriving DecidableEq

/-- The `content` object of a response candidate. -/
structure ResponseContent where
  parts : List ResponsePart
deriving DecidableEq

/-- One response candidate; `content` may be absent. -/
structure ResponseCandidate where
  content : Option ResponseContent
deriving DecidableEq

/-- The JSON body of a Gemini `generateContent` response; `candidates` may be
absent. -/
structure ResponseData where
  candidates : Option (List ResponseCandidate)
deriving DecidableEq

/-- Observable outcome of one axios `POST` to the Gemini endpoint: an HTTP 200
with a (possibly falsy) body, an HTTP error with a status and an axios error
message, a network-level error with an error `code` and message, or a
non-axios error. -/
inductive ApiOutcome where
  | ok (data : Option ResponseData)
  | httpError (status : Nat) (msg : String)
  | codeError (code : String) (msg : String)
  | otherError (msg : String)
deriving DecidableEq

/-- The external Gemini API, abstracted as a map from the model name in the
request URL to the outcome of the call. -/
def GeminiOracle := String → ApiOutcome

/-- Text extraction from a response body
(`gemini.service.ts`, `generateSummaryWithModel`):
`candidates[0].content.parts[0].text || ''`, with every missing layer giving
the empty string. -/
def extractResponseText (data : ResponseData) : String :=
  match data.candidates with
  | some (candidate :: _) =>
    match candidate.content with
    | some content =>
      match content.parts with
      | part :: _ => part.text.getD ""
      | [] => ""
    | none => ""
  | _ => ""

/-- The generic wrapper applied by the final re-throw of
`generateSummaryWithModel`. -/
def wrapGeminiError (msg : String) : String :=
  "Failed to generate summary using Gemini: " ++ msg

/-- The `try`/`catch` body of `generateSummaryWithModel` after the request was
issued: classify the outcome exactly as the source's ordered checks do. -/
def dispatchOutcome (modelToUse : String) (o : ApiOutcome) : Except String SummaryResult :=
  match o with
  | .ok none => .error (wrapGeminiError "Empty response from Gemini API")
  | .ok (some data) =>
    let text := extractResponseText data
    if text = "" then
      .error (wrapGeminiError "Could not extract text from the Gemini API response")
    else
      .ok ⟨text, extractKeyFeatures text, extractIndustryUseCases text⟩
  | .httpError status msg =>
    if status = 403 then
      .error "Access denied: API key may be invalid or lacks permissions for the specified model"
    else if status = 404 then
      .error ("Model not found: \"" ++ modelToUse ++ "\" may not be available or correctly specified")
    else
      .error (wrapGeminiError msg)
  | .codeError code msg =>
    if code = "ECONNREFUSED" || code = "ENOTFOUND" then
      .error "Network error: Unable to connect to the Gemini API"
    else if code = "ETIMEDOUT" then
      .error "Request timed out: The Gemini API took too long to respond"
    else
      .error (wrapGeminiError msg)
  | .otherError msg => .error (wrapGeminiError msg)

/-- Result of a summary-generation call: the value or thrown error message,
together with the list of model names for which an HTTP request was actually
issued. -/
structure GenResult where
  result : Except String SummaryResult
  attempts : List String

/-- `GeminiService.generateSummaryWithModel`: validate the key and model, then
issue one request for `modelToUse` and classify its outcome. -/
def generateSummaryWithModel (oracle : GeminiOracle) (apiKey : String)
    (modelToUse : Option String) : GenResult :=
  if apiKey = "" then
    ⟨.error (wrapGeminiError "Gemini API key is not configured. Please set GEMINI_API_KEY in your .env file."), []⟩
  else
    match modelToUse with
    | none =>
      ⟨.error (wrapGeminiError "Gemini model is not configured. Please set GEMINI_MODEL in your .env file."), []⟩
    | some m => ⟨dispatchOutcome m (oracle m), [m]⟩

/-- `GeminiService.isApiKeyConfigured`: `!!this.apiKey && this.apiKey.length > 20`. -/
def isApiKeyConfigured (apiKey : String) : Bool :=
  !(apiKey == "") && decide (apiKey.length > 20)

/-- `GeminiService.isExperimentalModel`. -/
def isExperimentalModel (model : Option String) : Bool :=
  match model with
  | none => false
  | some m =>
    jsStartsWith m "gemini-2." || strIncludes m "-exp-" || strIncludes m "-preview-"

/-- `GeminiService.generateSummary`: try the configured model; on an error
whose message includes `Could not extract text`, and only then, retry once
with the fixed fallback model `gemini-1.5-pro` when the configured model looks
experimental. -/
def generateSummary (oracle : GeminiOracle) (apiKey : String)
    (model : Option String) : GenResult :=
  if !(isApiKeyConfigured apiKey) then
    ⟨.error "Gemini API key is not properly configured. Please set GEMINI_API_KEY in your .env file.", []⟩
  else
    let r1 := generateSummaryWithModel oracle apiKey model
    match r1.result with
    | .ok v => ⟨.ok v, r1.attempts⟩
    | .error msg =>
      if isExperimentalModel model && strIncludes msg "Could not extract text" then
        let r2 := generateSummaryWithModel oracle apiKey (some "gemini-1.5-pro")
        ⟨r2.result, r1.attempts ++ r2.attempts⟩
      else if strIncludes msg "Cannot find module" then
        ⟨.error "Backend dependency missing. Please run \"cd backend && npm install\" to install required dependencies.", r1.attempts⟩
      else
        ⟨.error msg, r1.attempts⟩

/-- `VALID_GEMINI_MODELS` from `backend/src/config/index.ts`. -/
def VALID_GEMINI_MODELS : List String :=
  ["gemini-1.5-pro", "gemini-1.5-flash", "gemini-1.0-pro", "gemini-pro",
   "gemini-pro-vision", "gemini-2.5-pro-exp-03-25", "gemini-2.0-flash"]

/-- The experimental-model test used by the config layer:
`startsWith('gemini-2.') || includes('-exp-') || includes('-preview-')`. -/
def isExperimentalModelName (m : String) : Bool :=
  jsStartsWith m "gemini-2." || strIncludes m "-exp-" || strIncludes m "-preview-"

/-- Model-name validation from the config variant that carves out
experimental names: returns the model the `config` object ends up holding and
whether the warning branch was taken.  An unknown, non-experimental name is
warned about and replaced by `gemini-1.5-pro`. -/
def validateGeminiModel (envModel : Option String) : String × Bool :=
  let m := match envModel with
    | none => "gemini-1.5-pro"
    | some s => if s = "" then "gemini-1.5-pro" else s
  let isKnownModel := VALID_GEMINI_MODELS.contains m
  if !isKnownModel && !(isExperimentalModelName m) then
    ("gemini-1.5-pro", true)
  else
    (m, false)

/-- Model-name validation from `backend/src/config/index.ts`: any name outside
the allow-list (experimental-looking or not) is warned about and replaced by
`gemini-1.5-pro`. -/
def validateGeminiModelStrict (envModel : Option String) : String × Bool :=
  let m := match envModel with
    | none => "gemini-1.5-pro"
    | some s => if s = "" then "gemini-1.5-pro" else s
  if !(VALID_GEMINI_MODELS.contains m) then
    ("gemini-1.5-pro", true)
  else
    (m, false)

/-- A local calendar date, as observed through `getFullYear` / `getMonth`+1 /
`getDate` of a JS `Date`. -/
structure Civil where
  year : Int
  month : Int
  day : Int
deriving DecidableEq

/-- Day number of a civil date (days since 1970-01-01, proleptic Gregorian):
the ECMAScript `MakeDay` arithmetic that backs `Date`. -/
def daysFromCivil (c : Civil) : Int :=
  let y := if c.month ≤ 2 then c.year - 1 else c.year
  let era := Int.ediv y 400
  let yoe := y - era * 400
  let mp := if c.month ≤ 2 then c.month + 9 else c.month - 3
  let doy := Int.ediv (153 * mp + 2) 5 + c.day - 1
  let doe := yoe * 365 + Int.ediv yoe 4 - Int.ediv yoe 100 + doy
  era * 146097 + doe - 719468

/-- Civil date of a day number (inverse direction of `daysFromCivil`). -/
def civilFromDays (z : Int) : Civil :=
  let zd := z + 719468
  let era := Int.ediv zd 146097
  let doe := zd - era * 146097
  let yoe := Int.ediv (doe - Int.ediv doe 1460 + Int.ediv doe 36524 - Int.ediv doe 146096) 365
  let y := yoe + era * 400
  let doy := doe - (365 * yoe + Int.ediv yoe 4 - Int.ediv yoe 100)
  let mp := Int.ediv (5 * doy + 2) 153
  let d := doy - Int.ediv (153 * mp + 2) 5 + 1
  let m := if mp < 10 then mp + 3 else mp - 9
  ⟨y + (if m ≤ 2 then 1 else 0), m, d⟩

/-- The `formatDate` helper of `BigQueryService.getDateRange`:
`` `${year}-${month.padStart(2,'0')}-${day.padStart(2,'0')}` ``. -/
def formatCivil (c : Civil) : String :=
  toString c.year ++ "-" ++ pad2 (toString c.month) ++ "-" ++ pad2 (toString c.day)

/-- `BigQueryService.getDateRange`: strip the first `d` from the timeframe,
`parseInt` the rest, and render `now` and the date `days` days before `now`
(via `setDate(now.getDate() - days)`, i.e. `MakeDay` of `(year, month, 1)`
plus `newDate - 1`) as `YYYY-MM-DD` strings.  `none` models the `NaN` /
Invalid Date path that plain-digit timeframes never take. -/
def getDateRange (timeframe : String) (now : Civil) : Option (String × String) :=
  match jsParseInt (jsReplaceFirst timeframe "d" "") with
  | none => none
  | some days =>
    let startDate := civilFromDays
      (daysFromCivil ⟨now.year, now.month, 1⟩ + (now.day - days - 1))
    some (formatCivil startDate, formatCivil now)

/-- The parameterized query text built by `BigQueryService.getReleaseNotes`:
the type and product `IN UNNEST` predicates are appended only when the
corresponding list is non-empty. -/
def buildReleaseNotesQuery (dataset table : String)
    (types products : List String) : String :=
  "\n      SELECT\n        product_name,\n        release_note_type,\n        description,\n        DATE(published_at) as published_at\n      FROM \x60"
    ++ dataset ++ "." ++ table
    ++ "\x60\n      WHERE DATE(published_at) BETWEEN DATE(@startDate) AND DATE(@endDate)\n      "
    ++ (if types.length != 0 then "AND release_note_type IN UNNEST(@types)" else "")
    ++ "\n      "
    ++ (if products.length != 0 then "AND product_name IN UNNEST(@products)" else "")
    ++ "\n      ORDER BY published_at DESC\n    "

/-- Raw query-string parameters of `GET /api/release-notes`, each possibly
absent. -/
structure QueryParams where
  timeframe : Option String
  types : Option String
  products : Option String
  summarize : Option String
deriving DecidableEq

/-- The controller's parsed filter state. -/
structure ParsedQuery where
  timeframe : String
  types : List String
  products : List String
  summarize : Bool
deriving DecidableEq

/-- Parameter extraction in `ReleaseNotesController.getReleaseNotes`:
`timeframe || '7d'`, comma-split of `types` / `products` when present (JS `||`
and `?:` treat the empty string as falsy), `summarize === 'true'`. -/
def parseReleaseNotesQuery (q : QueryParams) : ParsedQuery where
  timeframe := match q.timeframe with
    | some t => if t = "" then "7d" else t
    | none => "7d"
  types := match q.types with
    | some s => if s = "" then [] else splitOnSubStr s ","
    | none => []
  products := match q.products with
    | some s => if s = "" then [] else splitOnSubStr s ","
    | none => []
  summarize := q.summarize == some "true"

/-- The non-fatal `summaryError` field of the response body. -/
structure SummaryErrorField where
  message : String
  details : String
deriving DecidableEq

/-- The `details` string the controller attaches to every summary error. -/
def summaryErrorDetails : String :=
  "There was an issue connecting to Gemini API. Please check your API key and configuration."

/-- The 200-response body of `GET /api/release-notes`. -/
structure ReleaseNotesResponse where
  notes : List ReleaseNote
  timeframe : String
  typesFilter : List String
  productsFilter : List String
  summary : Option SummaryResult
  summaryError : Option SummaryErrorField

/-- The 500-response body. -/
structure ErrorBody where
  error : String
  message : String
deriving DecidableEq

/-- `ReleaseNotesController.getReleaseNotes`: parse the query, fetch notes
(`warehouseResult` is the outcome of the BigQuery call), and when `summarize`
was requested and at least one note came back, call `generateSummary`,
downgrading any summary error to the `summaryError` field.  The second
component records which Gemini requests were issued. -/
def getReleaseNotesController (oracle : GeminiOracle) (apiKey : String)
    (model : Option String) (warehouseResult : Except String (List ReleaseNote))
    (q : QueryParams) : Except ErrorBody ReleaseNotesResponse × List String :=
  let p := parseReleaseNotesQuery q
  match warehouseResult with
  | .error e => (.error ⟨"Internal Server Error", e⟩, [])
  | .ok notes =>
    if p.summarize && decide (notes.length > 0) then
      let g := generateSummary oracle apiKey model
      match g.result with
      | .ok s =>
        (.ok ⟨notes, p.timeframe, p.types, p.products, some s, none⟩, g.attempts)
      | .error msg =>
        (.ok ⟨notes, p.timeframe, p.types, p.products, none,
          some ⟨msg, summaryErrorDetails⟩⟩, g.attempts)
    else
      (.ok ⟨notes, p.timeframe, p.types, p.products, none, none⟩, [])

/-- The visitor-counter document: `{count, lastUpdated}`. -/
structure CounterDoc where
  count : Int
  lastUpdated : Nat
deriving DecidableEq

/-- The Firestore document read in `VisitorCounterService`: `none` when the
document does not exist. -/
abbrev CounterState := Option CounterDoc

/-- The count a read observes: `0` when the document is absent
(`doc.data()?.count || 0` also maps a stored `0` to `0`). -/
def startCount (s : CounterState) : Int :=
  match s with
  | none => 0
  | some doc => doc.count

/-- `VisitorCounterService.incrementCounter`: inside one transaction, read the
current count (default `0` when absent), write `count + 1` with a fresh
timestamp, and return the new count. -/
def incrementCounter (now : Nat) (s : CounterState) : Int × CounterState :=
  let currentCount := startCount s
  let newCount := currentCount + 1
  (newCount, some ⟨newCount, now⟩)

/-- `VisitorCounterService.getCounter`: plain read, `0` when the document is
absent. -/
def getCounter (s : CounterState) : Int :=
  match s with
  | none => 0
  | some doc => doc.count

/-- `n` sequential transactional `incrementCounter` calls: the list of values
returned to the callers and the final store state. -/
def incrementN (n : Nat) (now : Nat) (s : CounterState) : List Int × CounterState :=
  match n with
  | 0 => ([], s)
  | k + 1 =>
    let r := incrementCounter now s
    let rest := incrementN k now r.2
    (r.1 :: rest.1, rest.2)

/-- An oracle for which every Gemini request times out at the axios 60-second
limit (the code checks `error.code === 'ETIMEDOUT'`). -/
def oracleTimeout : GeminiOracle := fun _ => .codeError "ETIMEDOUT" "timeout of 60000ms exceeded"

/-- An oracle answering HTTP 200 with a body whose `candidates` array is
empty, so no text can be extracted. -/
def oracleEmptyCandidates : GeminiOracle := fun _ => .ok (some ⟨some []⟩)

/-- An oracle answering HTTP 403 on every request. -/
def oracleForbidden : GeminiOracle := fun _ => .httpError 403 "Request failed with status code 403"

/-- A configured API key longer than 20 characters. -/
def testApiKey : String := "test-api-key-123456789012"

/-- A sample warehouse row. -/
def sampleNote : ReleaseNote :=
  ⟨"BigQuery", "FEATURE", "Faster ingestion", "2026-10-01"⟩

/-- A model reply with an industry-use-cases table followed by another
section. -/
def sampleUseCasesReply : String :=
  "intro\n## Industry Use Cases\n| A | B | C | D |\n|---|---|---|---|\n| Retail | Demand forecasting | lower stockouts | BigQuery |\n## Summary\nrest"

/-- Helper for proofs: `splitOnSubAux` leaves its input in one piece when the
separator does not occur in it. -/
theorem splitOnSubAux_of_not_contains (sep : List Char) :
    ∀ (fuel : Nat) (s acc : List Char), charsContains s sep = false →
      splitOnSubAux sep fuel s acc = [acc.reverse ++ s] := by
  intro fuel
  induction fuel with
  | zero => intro s acc _; rfl
  | succ k ih =>
    intro s acc h
    cases s with
    | nil => simp [splitOnSubAux]
    | cons c rest =>
      rw [charsContains, Bool.or_eq_false_iff] at h
      obtain ⟨h1, h2⟩ := h
      rw [splitOnSubAux, if_neg (by simp [h1]), ih rest (c :: acc) h2]
      simp

/-- `splitOnSub` returns the whole string when the separator does not occur. -/
theorem splitOnSub_of_not_contains (s sep : List Char)
    (h : charsContains s sep = false) : splitOnSub s sep = [s] := by
  simpa using splitOnSubAux_of_not_contains sep s.length s [] h

/-- C6: a model reply without the literal heading `## Industry Use Cases`
yields the empty use-case list rather than an error; when the heading is
present the entries come from the text sliced between the heading and the
next `##` (or end of string), keeping every `|`-delimited line that is not a
`---` separator. -/
theorem extractIndustryUseCases_no_heading :
    (∀ markdown : String, strIncludes markdown "## Industry Use Cases" = false →
      extractIndustryUseCases markdown = []) ∧
    extractIndustryUseCases sampleUseCasesReply
      = ["A: B", "Retail: Demand forecasting"] := by
  constructor
  · intro md h
    rw [strIncludes] at h
    rw [extractIndustryUseCases, splitOnSubStr, splitOnSub_of_not_contains _ _ h]
    rfl
  · decide

/-- Witness for C6 at a concrete reply without the heading. -/
theorem extractIndustryUseCases_no_heading_witness :
    strIncludes "The model returned prose only." "## Industry Use Cases" = false ∧
    extractIndustryUseCases "The model returned prose only." = [] :=
  ⟨by decide, extractIndustryUseCases_no_heading.1 _ (by decide)⟩

/-- C10: the section parser does not skip the markdown table header row — on a
reply echoing the table template that `createPrompt` itself embeds (followed
by one data row), the first extracted entry is the header text
`Industry: Use Case`, not a data row. -/
theorem extractIndustryUseCases_keeps_header_row :
    extractIndustryUseCases (promptTableTemplate
        ++ "\n| Retail | Personalized recommendations | higher conversion | Vertex AI Search |")
      = ["Industry: Use Case", "Retail: Personalized recommendations"] ∧
    ∀ notes : List ReleaseNote, ∃ pre post : String,
      createPrompt notes = pre ++ promptTableTemplate ++ post :=
  ⟨by decide, fun notes => ⟨promptPreamble notes, promptTail, rfl⟩⟩

/-- C8: `getCounter` on an absent (never-incremented) counter document
returns `0` (the read is total — there is no error path). -/
theorem getCounter_absent_zero : getCounter none = 0 := rfl

/-- Helper for C3: peeling one element off the expected list of returned
counts. -/
theorem range_map_counts (c : Int) (k : Nat) :
    (List.range (k + 1)).map (fun i : Nat => c + (i : Int) + 1)
      = (c + 1) :: (List.range k).map (fun i : Nat => c + 1 + (i : Int) + 1) := by
  rw [List.range_succ_eq_map, List.map_cons, List.map_map]
  congr 1
  · push_cast
    ring
  · refine List.map_congr_left fun i _ => ?_
    show c + ((i + 1 : Nat) : Int) + 1 = c + 1 + (i : Int) + 1
    push_cast
    ring

/-- Helper for C3: explicit form of `n + 1` sequential increments. -/
theorem incrementN_succ_spec (now : Nat) :
    ∀ (n : Nat) (s : CounterState),
      incrementN (n + 1) now s
        = ((List.range (n + 1)).map (fun i : Nat => startCount s + (i : Int) + 1),
           some ⟨startCount s + (n + 1), now⟩) := by
  intro n
  induction n with
  | zero =>
    intro s
    simp [incrementN, incrementCounter, List.range_succ, startCount]
  | succ k ih =>
    intro s
    have hstep : incrementN (k + 1 + 1) now s
        = ((startCount s + 1) :: (incrementN (k + 1) now (some ⟨startCount s + 1, now⟩)).1,
           (incrementN (k + 1) now (some ⟨startCount s + 1, now⟩)).2) := by
      simp [incrementN, incrementCounter]
    have hsc : startCount (some ⟨startCount s + 1, now⟩) = startCount s + 1 := rfl
    rw [hstep, ih (some ⟨startCount s + 1, now⟩)]
    simp only [hsc]
    rw [range_map_counts (startCount s) (k + 1)]
    congr 1
    simp only [Option.some.injEq, CounterDoc.mk.injEq]
    exact ⟨by push_cast; ring, trivial⟩

/-- C3: starting from any counter state (an absent document counting as `0`),
`N ≥ 1` sequential transactional increments return the successive new counts
`c+1, …, c+N` and leave a stored count of exactly `c + N` — no update is
lost and the count only grows. -/
theorem incrementCounter_sequential_exact (s : CounterState) (now : Nat)
    (N : Nat) (hN : 1 ≤ N) :
    (incrementN N now s).1
        = (List.range N).map (fun i : Nat => startCount s + (i : Int) + 1) ∧
    (incrementN N now s).2 = some ⟨startCount s + N, now⟩ := by
  obtain ⟨k, rfl⟩ : ∃ k, N = k + 1 := ⟨N - 1, by omega⟩
  rw [incrementN_succ_spec now k s]
  exact ⟨rfl, rfl⟩

/-- Witness for C3: three increments on an absent document. -/
theorem incrementCounter_sequential_exact_witness :
    1 ≤ 3 ∧
    ((incrementN 3 0 none).1
        = (List.range 3).map (fun i : Nat => startCount none + (i : Int) + 1) ∧
     (incrementN 3 0 none).2 = some ⟨startCount none + 3, 0⟩) :=
  ⟨by decide, incrementCounter_sequential_exact none 0 3 (by decide)⟩

/-- C2 (amended): a configured model name outside the known-model allow-list
that does not look experimental is warned about AND replaced by the fallback
`gemini-1.5-pro` — the configured name is not kept.  This holds in both
config variants. -/
theorem geminiModel_unknown_name_replaced (m : String) (hne : m ≠ "")
    (hunknown : VALID_GEMINI_MODELS.contains m = false)
    (hexp : isExperimentalModelName m = false) :
    validateGeminiModel (some m) = ("gemini-1.5-pro", true) ∧
    validateGeminiModelStrict (some m) = ("gemini-1.5-pro", true) := by
  have hmem : m ∉ VALID_GEMINI_MODELS := by simpa using hunknown
  constructor
  · simp [validateGeminiModel, hne, hunknown, hexp, hmem]
  · simp [validateGeminiModelStrict, hne, hunknown, hmem]

/-- Counterexample for C2 as stated: the unknown non-experimental name
`claude-3` is not kept — the configuration layer swaps in `gemini-1.5-pro`
(while also warning). -/
theorem geminiModel_unknown_name_not_kept :
    validateGeminiModel (some "claude-3") = ("gemini-1.5-pro", true) ∧
    validateGeminiModelStrict (some "claude-3") = ("gemini-1.5-pro", true) ∧
    "gemini-1.5-pro" ≠ "claude-3" :=
  ⟨by decide, by decide, by decide⟩

/-- Witness for the amended C2 at the concrete name `mystery-model`. -/
theorem geminiModel_unknown_name_replaced_witness :
    ("mystery-model" ≠ "") ∧
    VALID_GEMINI_MODELS.contains "mystery-model" = false ∧
    isExperimentalModelName "mystery-model" = false ∧
    (validateGeminiModel (some "mystery-model") = ("gemini-1.5-pro", true) ∧
     validateGeminiModelStrict (some "mystery-model") = ("gemini-1.5-pro", true)) :=
  ⟨by decide, by decide, by decide,
    geminiModel_unknown_name_replaced "mystery-model" (by decide) (by decide) (by decide)⟩

/-- The day-of-month enters `daysFromCivil` additively: moving the civil day
field moves the day number by the same amount. -/
theorem daysFromCivil_day (y m d : Int) :
    daysFromCivil ⟨y, m, d⟩ = daysFromCivil ⟨y, m, 1⟩ + d - 1 := by
  by_cases hm : m ≤ 2 <;> simp [daysFromCivil, hm] <;> ring

/-- C7: for the timeframes `7d`, `30d`, `90d` the computed range is exactly
(`now − N` days, `now`), both rendered at calendar-day granularity as
`YYYY-MM-DD` by `formatCivil`. -/
theorem getDateRange_standard_timeframes (now : Civil) (tf : String) (N : Int)
    (h : (tf, N) ∈ [("7d", (7 : Int)), ("30d", 30), ("90d", 90)]) :
    getDateRange tf now
      = some (formatCivil (civilFromDays (daysFromCivil now - N)), formatCivil now) := by
  obtain ⟨y, m, d⟩ := now
  have key : ∀ days : Int,
      daysFromCivil ⟨y, m, 1⟩ + (d - days - 1) = daysFromCivil ⟨y, m, d⟩ - days := by
    intro days
    rw [daysFromCivil_day y m d]
    ring
  simp only [List.mem_cons, List.not_mem_nil, or_false, Prod.mk.injEq] at h
  rcases h with ⟨rfl, rfl⟩ | ⟨rfl, rfl⟩ | ⟨rfl, rfl⟩
  · show some (formatCivil (civilFromDays (daysFromCivil ⟨y, m, 1⟩ + (d - 7 - 1))),
        formatCivil ⟨y, m, d⟩)
      = some (formatCivil (civilFromDays (daysFromCivil ⟨y, m, d⟩ - 7)), formatCivil ⟨y, m, d⟩)
    rw [key 7]
  · show some (formatCivil (civilFromDays (daysFromCivil ⟨y, m, 1⟩ + (d - 30 - 1))),
        formatCivil ⟨y, m, d⟩)
      = some (formatCivil (civilFromDays (daysFromCivil ⟨y, m, d⟩ - 30)), formatCivil ⟨y, m, d⟩)
    rw [key 30]
  · show some (formatCivil (civilFromDays (daysFromCivil ⟨y, m, 1⟩ + (d - 90 - 1))),
        formatCivil ⟨y, m, d⟩)
      = some (formatCivil (civilFromDays (daysFromCivil ⟨y, m, d⟩ - 90)), formatCivil ⟨y, m, d⟩)
    rw [key 90]

/-- Witness for C7 at `7d` on 2026-10-11. -/
theorem getDateRange_standard_timeframes_witness :
    (("7d", (7 : Int)) ∈ [("7d", (7 : Int)), ("30d", 30), ("90d", 90)]) ∧
    getDateRange "7d" ⟨2026, 10, 11⟩
      = some (formatCivil (civilFromDays (daysFromCivil ⟨2026, 10, 11⟩ - 7)),
          formatCivil ⟨2026, 10, 11⟩) :=
  ⟨by decide, getDateRange_standard_timeframes ⟨2026, 10, 11⟩ "7d" 7 (by decide)⟩

/-- Helper for C9: the first `d` of `<digits>d` is the appended one. -/
theorem splitFirstSub_append_last (ds : List Char) (h : ∀ c ∈ ds, c ≠ 'd') :
    splitFirstSub (ds ++ ['d']) ['d'] = some (ds, []) := by
  induction ds with
  | nil => rfl
  | cons c rest ih =>
    have hc : c ≠ 'd' := h c (List.mem_cons_self c rest)
    have hrest : ∀ x ∈ rest, x ≠ 'd' := fun x hx => h x (List.mem_cons_of_mem c hx)
    have hpre : List.isPrefixOf ['d'] (c :: (rest ++ ['d'])) = false := by
      simp [List.isPrefixOf]
      exact fun hh => hc hh.symm
    rw [List.cons_append, splitFirstSub, if_neg (by simp [hpre]), ih hrest]

/-- Helper for C9: `takeWhile` keeps a list all of whose elements satisfy the
predicate. -/
theorem takeWhile_all (p : Char → Bool) :
    ∀ l : List Char, (∀ c ∈ l, p c = true) → l.takeWhile p = l := by
  intro l
  induction l with
  | nil => intro _; rfl
  | cons c rest ih =>
    intro h
    rw [List.takeWhile_cons, h c (List.mem_cons_self c rest)]
    simp [ih fun x hx => h x (List.mem_cons_of_mem c hx)]

/-- C9: the timeframe parameter is not validated against `{7d, 30d, 90d}` —
any `<digits>d` string shifts the start date back by that many days; an
absent timeframe defaults to `7d`, and absent `types` / `products` parameters
parse to empty lists, for which the query contains no `IN UNNEST`
restriction (while non-empty lists add the corresponding predicate). -/
theorem timeframe_unvalidated_defaults :
    (∀ (now : Civil) (ds : List Char), ds ≠ [] → (∀ c ∈ ds, c.isDigit = true) →
      getDateRange (String.mk (ds ++ ['d'])) now
        = some (formatCivil (civilFromDays (daysFromCivil now - digitsVal ds)),
            formatCivil now)) ∧
    parseReleaseNotesQuery ⟨none, none, none, none⟩ = ⟨"7d", [], [], false⟩ ∧
    strIncludes (buildReleaseNotesQuery "google_cloud_release_notes" "release_notes" [] [])
        "UNNEST" = false ∧
    strIncludes (buildReleaseNotesQuery "google_cloud_release_notes" "release_notes"
        ["FEATURE"] ["BigQuery"]) "AND release_note_type IN UNNEST(@types)" = true ∧
    strIncludes (buildReleaseNotesQuery "google_cloud_release_notes" "release_notes"
        ["FEATURE"] ["BigQuery"]) "AND product_name IN UNNEST(@products)" = true := by
  refine ⟨?_, by decide, by decide, by decide, by decide⟩
  intro now ds hne hdig
  obtain ⟨y, m, d⟩ := now
  have hnd : ∀ c ∈ ds, c ≠ 'd' := by
    intro c hc hcd
    have hd := hdig c hc
    rw [hcd] at hd
    exact absurd hd (by decide)
  have hrep : jsReplaceFirst (String.mk (ds ++ ['d'])) "d" "" = String.mk ds := by
    rw [jsReplaceFirst]
    rw [show (String.mk (ds ++ ['d'])).data = ds ++ ['d'] from rfl]
    rw [show ("d" : String).data = ['d'] from rfl]
    rw [splitFirstSub_append_last ds hnd]
    simp
  have hemp : ds.isEmpty = false := by
    cases ds with
    | nil => exact absurd rfl hne
    | cons a b => rfl
  have hparse : jsParseInt (String.mk ds) = some (digitsVal ds) := by
    simp only [jsParseInt]
    rw [takeWhile_all Char.isDigit ds hdig, if_neg (by simp [hemp])]
  rw [getDateRange, hrep, hparse]
  show some (formatCivil (civilFromDays (daysFromCivil ⟨y, m, 1⟩ + (d - digitsVal ds - 1))),
      formatCivil ⟨y, m, d⟩)
    = some (formatCivil (civilFromDays (daysFromCivil ⟨y, m, d⟩ - digitsVal ds)),
        formatCivil ⟨y, m, d⟩)
  have key : daysFromCivil ⟨y, m, 1⟩ + (d - digitsVal ds - 1)
      = daysFromCivil ⟨y, m, d⟩ - digitsVal ds := by
    rw [daysFromCivil_day y m d]
    ring
  rw [key]

/-- Witness for C9 at the non-standard timeframe `15d`. -/
theorem timeframe_unvalidated_defaults_witness :
    (['1', '5'] ≠ ([] : List Char)) ∧
    (∀ c ∈ ['1', '5'], Char.isDigit c = true) ∧
    getDateRange (String.mk (['1', '5'] ++ ['d'])) ⟨2026, 3, 5⟩
      = some (formatCivil (civilFromDays (daysFromCivil ⟨2026, 3, 5⟩ - digitsVal ['1', '5'])),
          formatCivil ⟨2026, 3, 5⟩) :=
  ⟨by decide, by decide,
    timeframe_unvalidated_defaults.1 ⟨2026, 3, 5⟩ ['1', '5'] (by decide) (by decide)⟩

/-- C4: when the warehouse returns zero notes, a summarize=true request calls
the Gemini API zero times and responds 200 with the notes and with neither a
`summary` nor a `summaryError` field. -/
theorem summarize_zero_notes_no_gemini_call (oracle : GeminiOracle)
    (apiKey : String) (model : Option String) (q : QueryParams)
    (_hsum : (parseReleaseNotesQuery q).summarize = true) :
    getReleaseNotesController oracle apiKey model (.ok []) q
      = (.ok ⟨[], (parseReleaseNotesQuery q).timeframe,
          (parseReleaseNotesQuery q).types, (parseReleaseNotesQuery q).products,
          none, none⟩, []) := by
  simp [getReleaseNotesController]

/-- Witness for C4 with concrete request parameters. -/
theorem summarize_zero_notes_no_gemini_call_witness :
    (parseReleaseNotesQuery ⟨none, none, none, some "true"⟩).summarize = true ∧
    getReleaseNotesController oracleEmptyCandidates testApiKey
        (some "gemini-1.5-pro") (.ok []) ⟨none, none, none, some "true"⟩
      = (.ok ⟨[], (parseReleaseNotesQuery ⟨none, none, none, some "true"⟩).timeframe,
          (parseReleaseNotesQuery ⟨none, none, none, some "true"⟩).types,
          (parseReleaseNotesQuery ⟨none, none, none, some "true"⟩).products,
          none, none⟩, []) :=
  ⟨by decide,
    summarize_zero_notes_no_gemini_call oracleEmptyCandidates testApiKey
      (some "gemini-1.5-pro") ⟨none, none, none, some "true"⟩ (by decide)⟩

/-- C5: when the warehouse query succeeded but summary generation threw, the
request still completes with a 200 carrying the fetched notes; the failure
appears only as the non-fatal `summaryError` field with the thrown message
and the fixed details string. -/
theorem summary_error_downgraded (oracle : GeminiOracle) (apiKey : String)
    (model : Option String) (notes : List ReleaseNote) (q : QueryParams)
    (msg : String)
    (hsum : (parseReleaseNotesQuery q).summarize = true)
    (hnotes : notes ≠ [])
    (herr : (generateSummary oracle apiKey model).result = .error msg) :
    getReleaseNotesController oracle apiKey model (.ok notes) q
      = (.ok ⟨notes, (parseReleaseNotesQuery q).timeframe,
          (parseReleaseNotesQuery q).types, (parseReleaseNotesQuery q).products,
          none, some ⟨msg, summaryErrorDetails⟩⟩,
         (generateSummary oracle apiKey model).attempts) := by
  have hlen : decide (notes.length > 0) = true := by
    cases notes with
    | nil => exact absurd rfl hnotes
    | cons a b => simp
  simp [getReleaseNotesController, hsum, hlen, herr]

/-- Witness for C5: a 403 from the Gemini API on a one-note request. -/
theorem summary_error_downgraded_witness :
    (parseReleaseNotesQuery ⟨none, none, none, some "true"⟩).summarize = true ∧
    [sampleNote] ≠ [] ∧
    (generateSummary oracleForbidden testApiKey (some "gemini-1.5-pro")).result
      = .error "Access denied: API key may be invalid or lacks permissions for the specified model" ∧
    getReleaseNotesController oracleForbidden testApiKey (some "gemini-1.5-pro")
        (.ok [sampleNote]) ⟨none, none, none, some "true"⟩
      = (.ok ⟨[sampleNote],
          (parseReleaseNotesQuery ⟨none, none, none, some "true"⟩).timeframe,
          (parseReleaseNotesQuery ⟨none, none, none, some "true"⟩).types,
          (parseReleaseNotesQuery ⟨none, none, none, some "true"⟩).products,
          none,
          some ⟨"Access denied: API key may be invalid or lacks permissions for the specified model",
            summaryErrorDetails⟩⟩,
         (generateSummary oracleForbidden testApiKey (some "gemini-1.5-pro")).attempts) :=
  ⟨by decide, by decide, rfl,
    summary_error_downgraded oracleForbidden testApiKey (some "gemini-1.5-pro")
      [sampleNote] ⟨none, none, none, some "true"⟩
      "Access denied: API key may be invalid or lacks permissions for the specified model"
      (by decide) (by decide) rfl⟩

/-- C1 (amended): with a configured key and an experimental model name, a
failed first attempt triggers the single `gemini-1.5-pro` fallback exactly
when the error message contains `Could not extract text` (the empty-text
case); any other failure — including network, auth and the 60-second
timeout — is surfaced to the caller after exactly one request, with no
fallback attempt. -/
theorem generateSummary_fallback_only_on_extract_failure
    (oracle : GeminiOracle) (apiKey : String) (m : String) (msg : String)
    (hkey : isApiKeyConfigured apiKey = true)
    (hexp : isExperimentalModel (some m) = true)
    (herr : (generateSummaryWithModel oracle apiKey (some m)).result = .error msg) :
    (strIncludes msg "Could not extract text" = true →
      generateSummary oracle apiKey (some m)
        = ⟨(generateSummaryWithModel oracle apiKey (some "gemini-1.5-pro")).result,
           [m, "gemini-1.5-pro"]⟩) ∧
    (strIncludes msg "Could not extract text" = false →
     strIncludes msg "Cannot find module" = false →
      generateSummary oracle apiKey (some m) = ⟨.error msg, [m]⟩) := by
  have hne : apiKey ≠ "" := by
    intro hk
    rw [isApiKeyConfigured, hk] at hkey
    simp at hkey
  have hW : generateSummaryWithModel oracle apiKey (some m)
      = ⟨dispatchOutcome m (oracle m), [m]⟩ := by
    rw [generateSummaryWithModel, if_neg hne]
  have hW2 : generateSummaryWithModel oracle apiKey (some "gemini-1.5-pro")
      = ⟨dispatchOutcome "gemini-1.5-pro" (oracle "gemini-1.5-pro"),
         ["gemini-1.5-pro"]⟩ := by
    rw [generateSummaryWithModel, if_neg hne]
  rw [hW] at herr
  simp only at herr
  constructor
  · intro hinc
    rw [generateSummary, if_neg (by simp [hkey])]
    simp only [hW, herr, hexp, hinc, hW2]
    simp
  · intro hinc hmod
    rw [generateSummary, if_neg (by simp [hkey])]
    simp only [hW, herr, hexp, hinc, hmod]
    simp

/-- Witness for the amended C1: an empty-candidates 200 response from an
experimental model triggers exactly one fallback request. -/
theorem generateSummary_fallback_only_on_extract_failure_witness :
    isApiKeyConfigured testApiKey = true ∧
    isExperimentalModel (some "gemini-2.0-flash") = true ∧
    (generateSummaryWithModel oracleEmptyCandidates testApiKey
        (some "gemini-2.0-flash")).result
      = .error "Failed to generate summary using Gemini: Could not extract text from the Gemini API response" ∧
    ((strIncludes "Failed to generate summary using Gemini: Could not extract text from the Gemini API response"
          "Could not extract text" = true →
        generateSummary oracleEmptyCandidates testApiKey (some "gemini-2.0-flash")
          = ⟨(generateSummaryWithModel oracleEmptyCandidates testApiKey
              (some "gemini-1.5-pro")).result,
             ["gemini-2.0-flash", "gemini-1.5-pro"]⟩) ∧
     (strIncludes "Failed to generate summary using Gemini: Could not extract text from the Gemini API response"
          "Could not extract text" = false →
      strIncludes "Failed to generate summary using Gemini: Could not extract text from the Gemini API response"
          "Cannot find module" = false →
        generateSummary oracleEmptyCandidates testApiKey (some "gemini-2.0-flash")
          = ⟨.error "Failed to generate summary using Gemini: Could not extract text from the Gemini API response",
             ["gemini-2.0-flash"]⟩)) :=
  ⟨rfl, by decide, rfl,
    generateSummary_fallback_only_on_extract_failure oracleEmptyCandidates
      testApiKey "gemini-2.0-flash"
      "Failed to generate summary using Gemini: Could not extract text from the Gemini API response"
      rfl (by decide) rfl⟩

/-- Counterexample for C1 as stated: a 60-second timeout with the
experimental model `gemini-2.0-flash` does NOT trigger the fallback — exactly
one request is issued and the timeout error is surfaced directly. -/
theorem generateSummary_timeout_no_fallback :
    isExperimentalModel (some "gemini-2.0-flash") = true ∧
    (generateSummary oracleTimeout testApiKey (some "gemini-2.0-flash")).result
      = .error "Request timed out: The Gemini API took too long to respond" ∧
    (generateSummary oracleTimeout testApiKey (some "gemini-2.0-flash")).attempts
      = ["gemini-2.0-flash"] :=
  ⟨by decide, rfl, rfl⟩
